import Mathlib

/-!
Shallow embedding of the m3u8-downloader download supervision core
(`src/download.py` and the job-registry part of `src/main.py`).

Conventions of the embedding:
* Python `datetime.timedelta` values are modelled as natural numbers of
  seconds (every timedelta built by this program has whole seconds).
* Python floats are modelled as rationals.
* The mutable `Downloader`/`DownloadStatus` objects are modelled by pure
  state-passing: each callback method `self.on_x(...)` becomes a function
  `DownloadStatus → ... → DownloadStatus` (or `Downloader → ... → Downloader`).
* Python exceptions are modelled with `Except`.
-/

namespace M3u8dl

/-- The phase literal of `DownloadStatus.status`:
`Literal["COMPLETED"] | Literal["TERMINATED"] | Literal["PROGRESS"]`
(download.py line 141).  Note the type has exactly these three values:
the source has no `Failed` phase. -/
inductive Phase where
  | PROGRESS
  | COMPLETED
  | TERMINATED
deriving DecidableEq

/-- Rendering of the phase literal in an f-string (it is a Python `str`). -/
def Phase.toStr : Phase → String
  | .PROGRESS => "PROGRESS"
  | .COMPLETED => "COMPLETED"
  | .TERMINATED => "TERMINATED"

/-- `FFmpegError` from the `ffmpeg` library: an exception object carrying a
message.  Only its identity and message matter to this program. -/
structure FFmpegErr where
  message : String
deriving DecidableEq

/-- `@dataclass DownloadStatus` (download.py lines 135-142).
`duration` and `time` are timedeltas, modelled in seconds;
`play_speed` is a float, modelled as a rational. -/
structure DownloadStatus where
  duration : Nat
  time : Nat
  play_speed : ℚ
  current_size : Nat
  status : Phase
  error : Option FFmpegErr := none
deriving DecidableEq

/-- A structured progress sample delivered by the ffmpeg library to
`on_progress` (fields `time`, `speed`, `size` of `ffmpeg.Progress`). -/
structure PyProgress where
  time : Nat
  speed : ℚ
  size : Nat
deriving DecidableEq

/-- `Downloader.on_progress` (download.py lines 53-58): unconditionally
overwrites `time`, `play_speed`, `current_size` and re-asserts
`status = "PROGRESS"`.  There is no guard on the current phase. -/
def on_progress (s : DownloadStatus) (p : PyProgress) : DownloadStatus :=
  { s with time := p.time, play_speed := p.speed,
           current_size := p.size, status := Phase.PROGRESS }

/-- `Downloader.on_completed` (download.py lines 60-62). -/
def on_completed (s : DownloadStatus) : DownloadStatus :=
  { s with status := Phase.COMPLETED }

/-- `Downloader.on_terminated` (download.py lines 64-66). -/
def on_terminated (s : DownloadStatus) : DownloadStatus :=
  { s with status := Phase.TERMINATED }

/-- Outcome of awaiting `task.result()` on the `ffmpeg.execute()` task:
either it returned normally or it raised an `FFmpegError`. -/
inductive TaskOutcome where
  | ok
  | ffmpegError (e : FFmpegErr)
deriving DecidableEq

/-- `on_task_end` (download.py lines 100-108): `task.result()` is inspected;
an `FFmpegError` is caught and recorded as `self._status.error = e`.
No other field (in particular not `status`) is touched. -/
def on_task_end (s : DownloadStatus) : TaskOutcome → DownloadStatus
  | .ok => s
  | .ffmpegError e => { s with error := some e }

/-! ### Duration-line parsing (`re.search(r"Duration: (\d{2}):(\d{2}):(\d{2})", line)`) -/

/-- Numeric value of an ASCII digit character. -/
def digitVal (c : Char) : Nat := c.toNat - 48

/-- Try to match the fixed-width pattern `Duration: DD:DD:DD` at the head of
the character list, returning the three two-digit groups. -/
def matchDurationAt : List Char → Option (Nat × Nat × Nat)
  | 'D' :: 'u' :: 'r' :: 'a' :: 't' :: 'i' :: 'o' :: 'n' :: ':' :: ' ' ::
      h1 :: h2 :: ':' :: m1 :: m2 :: ':' :: s1 :: s2 :: _ =>
    if h1.isDigit && h2.isDigit && m1.isDigit && m2.isDigit
        && s1.isDigit && s2.isDigit then
      some (10 * digitVal h1 + digitVal h2,
            10 * digitVal m1 + digitVal m2,
            10 * digitVal s1 + digitVal s2)
    else
      none
  | _ => none

/-- `re.search`: leftmost match of the duration pattern in the line. -/
def searchDuration : List Char → Option (Nat × Nat × Nat)
  | [] => none
  | c :: rest =>
    match matchDurationAt (c :: rest) with
    | some r => some r
    | none => searchDuration rest

/-- Total seconds parsed from the first duration match of a line, if any
(`timedelta(hours=g1, minutes=g2, seconds=g3)` in seconds). -/
def lineDuration (line : String) : Option Nat :=
  (searchDuration line.data).map (fun g => 3600 * g.1 + 60 * g.2.1 + g.2.2)

/-! ### The Downloader object -/

/-- The `Downloader` object state (download.py lines 20-36).  The ffmpeg
process handle `_ffmpeg_process: FFmpeg | None` is modelled by an
`Option Unit` (only its presence is ever tested); the asyncio task is not
part of the state (its cancellation flag is an input of the polling loop,
and its outcome an input of `on_task_end`). -/
structure Downloader where
  url : String
  progress_interval : Nat
  status : DownloadStatus
  output_file : String
  ffmpeg_process : Option Unit
  stderrBuf : String
deriving DecidableEq

/-- `Downloader.__init__` (download.py lines 21-36): status starts at zero
values with phase `PROGRESS`, no process handle, empty stderr buffer. -/
def Downloader.init (url : String) (progress_interval : Nat)
    (output_file : String) : Downloader :=
  { url := url
    progress_interval := progress_interval
    status := { duration := 0, time := 0, play_speed := 0,
                current_size := 0, status := Phase.PROGRESS, error := none }
    output_file := output_file
    ffmpeg_process := none
    stderrBuf := "" }

/-- `Downloader.on_stderr` (download.py lines 41-51): append the line to the
captured buffer; if `not self._status.duration` (i.e. the timedelta is
zero) and the line matches the duration pattern, set `duration`. -/
def Downloader.on_stderr (d : Downloader) (line : String) : Downloader :=
  let d1 := { d with stderrBuf := d.stderrBuf ++ line ++ "\n" }
  if d1.status.duration = 0 then
    match searchDuration line.data with
    | some g =>
      { d1 with status :=
          { d1.status with duration := 3600 * g.1 + 60 * g.2.1 + g.2.2 } }
    | none => d1
  else d1

/-- The events the ffmpeg library and the done-callback can deliver to a
`Downloader` while (or after) the process runs. -/
inductive Event where
  | stderrLine (line : String)
  | progress (p : PyProgress)
  | completed
  | terminated
  | taskEnd (o : TaskOutcome)

/-- Dispatch of one delivered event to the corresponding callback
(registered in download.py lines 91-95 and 110). -/
def Downloader.step (d : Downloader) : Event → Downloader
  | .stderrLine line => d.on_stderr line
  | .progress p => { d with status := on_progress d.status p }
  | .completed => { d with status := on_completed d.status }
  | .terminated => { d with status := on_terminated d.status }
  | .taskEnd o => { d with status := on_task_end d.status o }

/-- Delivery of a whole sequence of events. -/
def Downloader.run (d : Downloader) (evs : List Event) : Downloader :=
  evs.foldl Downloader.step d

/-- The effect of entering `Downloader.download()` up to the polling loop
(download.py line 97): the process handle is stored and never cleared
afterwards. -/
def Downloader.download_start (d : Downloader) : Downloader :=
  { d with ffmpeg_process := some () }

/-! ### Cancellation (`Downloader.cancel_download`, download.py lines 71-79) -/

/-- The Python exceptions this embedding distinguishes. -/
inductive PyErr where
  | fileNotFound
  | valueError
deriving DecidableEq

/-- `Path.unlink` on the output file.  The filesystem is modelled by the
boolean `fileExists`; `unlink` raises `FileNotFoundError` when the file is
absent and otherwise removes it (result: does the file exist afterwards). -/
def unlink (fileExists : Bool) : Except PyErr Bool :=
  if fileExists then Except.ok false else Except.error PyErr.fileNotFound

/-- The `try ... except FileNotFoundError: pass` wrapper around the unlink
call (download.py lines 74-77): a `FileNotFoundError` is swallowed (the
file state is unchanged), any other exception would propagate. -/
def exceptFileNotFound (fileExists : Bool) :
    Except PyErr Bool → Except PyErr Bool
  | .ok b => Except.ok b
  | .error .fileNotFound => Except.ok fileExists
  | .error e => Except.error e

/-- Observable outcome of a `cancel_download` call. -/
structure CancelResult where
  returned : Bool
  terminateSignalled : Bool
  fileExistsAfter : Bool
deriving DecidableEq

/-- `Downloader.cancel_download` (download.py lines 71-79):
if `self._ffmpeg_process` is set, send `terminate()`, best-effort unlink
the output file swallowing `FileNotFoundError`, and return `True`;
otherwise do nothing and return `False`.  An uncaught exception would
surface as `Except.error`. -/
def Downloader.cancel_download (d : Downloader) (fileExists : Bool) :
    Except PyErr CancelResult :=
  match d.ffmpeg_process with
  | some _ =>
    match exceptFileNotFound fileExists (unlink fileExists) with
    | .ok after =>
      Except.ok { returned := true, terminateSignalled := true,
                  fileExistsAfter := after }
    | .error e => Except.error e
  | none =>
    Except.ok { returned := false, terminateSignalled := false,
                fileExistsAfter := fileExists }

/-! ### The polling loop of `Downloader.download()` (download.py lines 112-132)

The loop body reads shared state at two instants per iteration: the checks
at the top of the loop (`self._task.cancelled()` and
`self._status.status == ...`, lines 118 and 123-126), and — when neither
check fires — the `yield self._status` after `await asyncio.sleep(...)`
(lines 131-132), by which time concurrent callbacks may have mutated the
status.  A `Checkpoint` records what one iteration observes at those two
instants; a schedule is the list of checkpoints of successive iterations. -/

/-- What one loop iteration observes. -/
structure Checkpoint where
  cancelled : Bool
  statusAtTop : DownloadStatus
  statusAfterSleep : DownloadStatus
deriving DecidableEq

/-- The terminal test at the top of the loop (download.py lines 123-126):
`status == "COMPLETED" or status == "TERMINATED"`. -/
def isTerminalCheck (s : DownloadStatus) : Bool :=
  s.status = Phase.COMPLETED || s.status = Phase.TERMINATED

/-- Whether an iteration's top-of-loop checks end the loop. -/
def Checkpoint.triggers (c : Checkpoint) : Bool :=
  c.cancelled || isTerminalCheck c.statusAtTop

/-- One run of the `while True` loop over a (finite prefix of a) schedule:
the list of yielded status values, and whether the loop has ended
(`is_done` set and `break` reached) within the schedule.  In each
iteration: if the task is cancelled, yield the current status and stop;
else if the status phase is terminal, yield it and stop; else sleep and
yield the (possibly concurrently mutated) status, then loop. -/
def downloadRun : List Checkpoint → List DownloadStatus × Bool
  | [] => ([], false)
  | c :: rest =>
    if c.cancelled then
      ([c.statusAtTop], true)
    else if isTerminalCheck c.statusAtTop then
      ([c.statusAtTop], true)
    else
      let r := downloadRun rest
      (c.statusAfterSleep :: r.1, r.2)

/-! ### Reference semantics of `yield self._status`

All three yield statements of `Downloader.download()` (lines 120, 128,
132) yield `self._status` itself — the shared mutable dataclass — not a
copy.  A yielded item is therefore an alias: reading it later observes the
status as it is then, not as it was at the yield. -/

/-- What a yield can hand to the consumer: the shared `_status` object
itself, or an independent copy of some value. -/
inductive Yielded where
  | sharedStatusRef
  | copyOf (v : DownloadStatus)
deriving DecidableEq

/-- The item actually yielded by every `yield self._status` in the source. -/
def downloadYield : Yielded := Yielded.sharedStatusRef

/-- Reading a received snapshot when the downloader is currently in state
`d`: an alias reads the shared status as it is now; a copy reads the
stored value. -/
def readYielded (d : Downloader) : Yielded → DownloadStatus
  | .sharedStatusRef => d.status
  | .copyOf v => v

/-! ### Rendering (`DownloadStatus.__str__`, download.py lines 152-159) -/

/-- Zero-pad a value below 100 to two digits. -/
def twoDigits (n : Nat) : String :=
  if n < 10 then "0" ++ toString n else toString n

/-- `H:MM:SS` with unpadded hours, as `str(datetime.timedelta)` prints the
sub-day part. -/
def formatHMS (secs : Nat) : String :=
  toString (secs / 3600) ++ ":" ++ twoDigits (secs / 60 % 60) ++ ":"
    ++ twoDigits (secs % 60)

/-- `str(datetime.timedelta(seconds=secs))` for nonnegative whole-second
timedeltas: `H:MM:SS`, preceded by a day count once it reaches a day. -/
def formatTimedelta (secs : Nat) : String :=
  if secs < 86400 then
    formatHMS secs
  else if secs / 86400 = 1 then
    "1 day, " ++ formatHMS (secs % 86400)
  else
    toString (secs / 86400) ++ " days, " ++ formatHMS (secs % 86400)

/-- Digits of the fractional expansion of `r / d` (with `r < d`), emitted
until the remainder vanishes or the fuel runs out. -/
def decimalDigits : Nat → Nat → Nat → String
  | 0, _, _ => ""
  | _ + 1, 0, _ => ""
  | fuel + 1, r, d =>
    toString (r * 10 / d) ++ decimalDigits fuel (r * 10 % d) d

/-- `str(float)` for floats modelled as rationals with a terminating
decimal expansion: integer part, a dot, and the fractional digits (at
least one, as Python prints `5.0` rather than `5`). -/
def formatFloat (q : ℚ) : String :=
  let sign := if q < 0 then "-" else ""
  let n := q.num.natAbs
  let d := q.den
  let frac := if n % d = 0 then "0" else decimalDigits 17 (n % d) d
  sign ++ toString (n / d) ++ "." ++ frac

/-- Python 3 `round` half-to-even of the fraction `n / d` (for `0 < d`). -/
def halfEvenDiv (n d : Nat) : Nat :=
  let q := n / d
  let r := n % d
  if 2 * r < d then q
  else if d < 2 * r then q + 1
  else if q % 2 = 0 then q else q + 1

/-- The value of `round(current_size / 1_000_000, 2)` in hundredths of a
megabyte.  The float `current_size / 1_000_000` is idealized as the exact
rational, so rounding to two decimals is half-to-even division of
`current_size * 100` by `10^6`. -/
def sizeHundredthsMB (size : Nat) : Nat := halfEvenDiv (size * 100) 1000000

/-- Python's `str` of the rounded float `k / 100` (`k` in hundredths):
integer part, a dot, and the fractional digits with trailing zeros
dropped but at least one digit kept (`5.0`, `5.1`, `5.25`). -/
def formatHundredths (k : Nat) : String :=
  let ip := k / 100
  let fr := k % 100
  if fr = 0 then toString ip ++ ".0"
  else if fr % 10 = 0 then toString ip ++ "." ++ toString (fr / 10)
  else toString ip ++ "." ++ twoDigits fr

/-- `DownloadStatus.__str__` (download.py lines 152-159): the fixed-format
summary block.  The size line renders `round(current_size / 1_000_000, 2)`
as a float. -/
def DownloadStatus.toStr (s : DownloadStatus) : String :=
  "Duration: " ++ formatTimedelta s.duration ++ "\n"
    ++ "Status: " ++ s.status.toStr ++ "\n"
    ++ "Time: " ++ formatTimedelta s.time ++ "\n"
    ++ "Speed: " ++ formatFloat s.play_speed ++ "x\n"
    ++ "Size: " ++ formatHundredths (sizeHundredthsMB s.current_size) ++ "MB"

/-! ### `DownloadStatus.get_error_stack` (download.py lines 144-150) -/

/-- `traceback.format_exception(type(e), e, e.__traceback__)` for an
`FFmpegError`, modelled from the stdlib's documented behaviour: a list of
newline-terminated lines ending with the `Type: message` line. -/
def formatException (e : FFmpegErr) : List String :=
  ["Traceback (most recent call last):\n",
   "ffmpeg.errors.FFmpegError: " ++ e.message ++ "\n"]

/-- `DownloadStatus.get_error_stack`: if an error is recorded, return the
formatted stack joined with newlines; otherwise raise
`ValueError("No error found")`. -/
def DownloadStatus.get_error_stack (s : DownloadStatus) :
    Except PyErr String :=
  match s.error with
  | some e => Except.ok (String.intercalate ("\n") (formatException e))
  | none => Except.error PyErr.valueError

/-! ### The job registry of the dispatcher (`src/main.py`) -/

namespace Main

/-- Filename normalization done by both commands (main.py lines 42-43 and
92-93): append `.mp4` when the name does not already end with it. -/
def normKey (name : String) : String :=
  if name.endsWith (".mp4") then name else name ++ ".mp4"

/-- Outcome of the `download` command's registration step. -/
inductive StartOutcome where
  | alreadyDownloading
  | started (key : String)
deriving DecidableEq

/-- The registry part of the `download` command (main.py lines 41-55):
normalize the filename; if the key is already in `bot.downloads`, reply
"Already downloading" and return without creating a job; otherwise create
the job and register it under the key.  The registry `bot.downloads` is a
dict keyed by filename; only its key set matters here, modelled as a list
of distinct keys. -/
def download (reg : List String) (file_name : String) :
    List String × StartOutcome :=
  let key := normKey file_name
  if reg.contains key then
    (reg, StartOutcome.alreadyDownloading)
  else
    (key :: reg, StartOutcome.started key)

/-- `ctx.bot.downloads.pop(file_name, None)` when the job's iteration ends
(main.py line 87), and `ctx.bot.downloads.pop(name)` in the cancel command
(main.py line 100): the key is removed from the registry. -/
def finishDownload (reg : List String) (key : String) : List String :=
  reg.erase key

end Main

/-! ### Concrete sample objects used by counterexamples and witnesses -/

/-- A downloader as it is right after `download()` stored the process
handle (download.py line 97), before any event arrived. -/
def sampleDownloader : Downloader :=
  (Downloader.init ("http://example.com/a.m3u8") 3 ("video.mp4")).download_start

/-- The shared status after the `completed` event fired on the sample
downloader. -/
def sampleDone : DownloadStatus := on_completed sampleDownloader.status

/-- A sample `FFmpegError` raised by `ffmpeg.execute()`. -/
def sampleErr : FFmpegErr := { message := "Non-zero exit status 1" }

/-- The status of §8's scenario: the diagnostic line `Duration: 00:02:30`
followed by the progress sample `{time: 75s, speed: 1.0, size: 5_000_000}`. -/
def scenarioStatus : DownloadStatus :=
  ((sampleDownloader.on_stderr ("Duration: 00:02:30")).step
    (Event.progress ⟨75, 1, 5000000⟩)).status

/-!
## Theorems
-/

/-- C1 counterexample: delivering a progress event to a `COMPLETED` status
does change it — the phase is reverted to `PROGRESS`, so the terminal
phase is not absorbing under `on_progress`. -/
theorem C1_progress_after_terminal_cex :
    sampleDone.status = Phase.COMPLETED
      ∧ (on_progress sampleDone ⟨75, 1, 5000000⟩).status = Phase.PROGRESS
      ∧ on_progress sampleDone ⟨75, 1, 5000000⟩ ≠ sampleDone := by
  decide

/-- C1 (amended): `on_progress` has no guard on the current phase: even
when the status is terminal (`COMPLETED` or `TERMINATED`), it overwrites
`time`, `play_speed`, `current_size` and sets the phase back to
`PROGRESS` (changing it), leaving only `duration` and `error` intact. -/
theorem C1_on_progress_not_absorbing (s : DownloadStatus) (p : PyProgress)
    (h : s.status = Phase.COMPLETED ∨ s.status = Phase.TERMINATED) :
    (on_progress s p).status = Phase.PROGRESS
      ∧ (on_progress s p).status ≠ s.status
      ∧ (on_progress s p).time = p.time
      ∧ (on_progress s p).play_speed = p.speed
      ∧ (on_progress s p).current_size = p.size
      ∧ (on_progress s p).duration = s.duration
      ∧ (on_progress s p).error = s.error := by
  refine ⟨rfl, ?_, rfl, rfl, rfl, rfl, rfl⟩
  rcases h with h | h <;> simp [on_progress, h]

/-- Witness for C1 at a concrete terminal status. -/
theorem C1_on_progress_not_absorbing_witness :
    (on_progress sampleDone ⟨75, 1, 5000000⟩).status ≠ sampleDone.status :=
  (C1_on_progress_not_absorbing sampleDone ⟨75, 1, 5000000⟩ (by decide)).2.1

/-- C4: `cancel_download` returns `False` and does nothing when no ffmpeg
process is set; otherwise it signals termination, deletes the output file
(swallowing the file-not-found case), and returns `True`; no exception
ever escapes it. -/
theorem C4_cancel_download_spec (d : Downloader) (fe : Bool) :
    (d.ffmpeg_process = none →
        d.cancel_download fe
          = Except.ok { returned := false, terminateSignalled := false,
                        fileExistsAfter := fe })
      ∧ (d.ffmpeg_process.isSome = true →
        d.cancel_download fe
          = Except.ok { returned := true, terminateSignalled := true,
                        fileExistsAfter := false })
      ∧ ∀ e : PyErr, d.cancel_download fe ≠ Except.error e := by
  cases hp : d.ffmpeg_process <;> cases fe <;>
    simp [Downloader.cancel_download, exceptFileNotFound, unlink, hp]

/-- Witness for C4: a fresh downloader has no process and cancels to
`False`; one that entered `download()` cancels to `True` with the file
removed. -/
theorem C4_cancel_download_spec_witness :
    (Downloader.init ("u") 3 ("v.mp4")).cancel_download true
        = Except.ok { returned := false, terminateSignalled := false,
                      fileExistsAfter := true }
      ∧ sampleDownloader.cancel_download true
        = Except.ok { returned := true, terminateSignalled := true,
                      fileExistsAfter := false } :=
  ⟨(C4_cancel_download_spec (Downloader.init ("u") 3 ("v.mp4")) true).1 rfl,
   (C4_cancel_download_spec sampleDownloader true).2.1 rfl⟩

/-- C6 counterexample: the yielded item is the shared `_status` object
itself, and after the `completed` callback fires, reading the snapshot the
consumer already received shows `COMPLETED` instead of the `PROGRESS`
value it had at the yield — the snapshot is not an independent value. -/
theorem C6_snapshot_alias_cex :
    downloadYield = Yielded.sharedStatusRef
      ∧ (readYielded sampleDownloader downloadYield).status = Phase.PROGRESS
      ∧ (readYielded (sampleDownloader.step Event.completed) downloadYield).status
          = Phase.COMPLETED := by
  decide

/-- C6 (amended): every yield hands out a reference to the shared status,
so the consumer's read of a received snapshot always shows the current
shared value; whenever a later event changes the shared status, it
thereby changes what the already-received snapshot reads. -/
theorem C6_yield_is_reference (d : Downloader) (e : Event) :
    readYielded (d.step e) downloadYield = (d.step e).status
      ∧ ((d.step e).status ≠ d.status →
          readYielded (d.step e) downloadYield ≠ readYielded d downloadYield) :=
  ⟨rfl, fun h => h⟩

/-- Witness for C6 at the `completed` event. -/
theorem C6_yield_is_reference_witness :
    readYielded (sampleDownloader.step Event.completed) downloadYield
      ≠ readYielded sampleDownloader downloadYield :=
  (C6_yield_is_reference sampleDownloader Event.completed).2 (by decide)

/-- Helper: `cancel_download` when a process handle is present. -/
theorem cancel_with_process (d : Downloader) (fe : Bool)
    (h : d.ffmpeg_process.isSome = true) :
    d.cancel_download fe
      = Except.ok { returned := true, terminateSignalled := true,
                    fileExistsAfter := false } := by
  cases hp : d.ffmpeg_process with
  | none => rw [hp] at h; exact absurd h (by simp)
  | some u =>
    cases fe <;> simp [Downloader.cancel_download, exceptFileNotFound, unlink, hp]

/-- Helper: one event dispatch never touches the process handle. -/
theorem step_preserves_process (d : Downloader) (e : Event) :
    (d.step e).ffmpeg_process = d.ffmpeg_process := by
  cases e with
  | stderrLine line =>
    simp only [Downloader.step, Downloader.on_stderr]
    split
    · split <;> rfl
    · rfl
  | progress p => rfl
  | completed => rfl
  | terminated => rfl
  | taskEnd o => cases o <;> rfl

/-- Helper: no sequence of delivered events touches the process handle. -/
theorem run_preserves_process (d : Downloader) (evs : List Event) :
    (d.run evs).ffmpeg_process = d.ffmpeg_process := by
  induction evs generalizing d with
  | nil => rfl
  | cons e es ih =>
    calc (d.run (e :: es)).ffmpeg_process
        = ((d.step e).run es).ffmpeg_process := rfl
      _ = (d.step e).ffmpeg_process := ih (d.step e)
      _ = d.ffmpeg_process := step_preserves_process d e

/-- C2 counterexample: the schedule records a single terminal transition
(the status turns `COMPLETED` during the first iteration's sleep), yet the
sleep-branch yield already carries the terminal state and the loop yields
it a second time from the check branch before stopping: two snapshots
carry the terminal state, and the sequence does not end immediately after
the first of them. -/
theorem C2_two_terminal_snapshots_cex :
    downloadRun
        [⟨false, sampleDownloader.status, sampleDone⟩,
         ⟨false, sampleDone, sampleDone⟩]
      = ([sampleDone, sampleDone], true)
      ∧ isTerminalCheck sampleDownloader.status = false
      ∧ isTerminalCheck sampleDone = true := by
  decide

/-- C2 (amended): the loop ends exactly at the first iteration whose
top-of-loop checks observe cancellation or a terminal phase, and that
iteration yields exactly one final snapshot (never zero); every earlier
iteration contributes its sleep-branch yield, which may itself already
carry the terminal state when the status turned terminal during the
sleep — so up to two consecutive yields may carry the terminal state. -/
theorem C2_ends_at_first_trigger (pre : List Checkpoint) (c : Checkpoint)
    (post : List Checkpoint)
    (hpre : pre.all (fun x => !x.triggers) = true)
    (hc : c.triggers = true) :
    downloadRun (pre ++ c :: post)
      = (pre.map Checkpoint.statusAfterSleep ++ [c.statusAtTop], true) := by
  induction pre with
  | nil =>
    simp only [List.nil_append, List.map_nil]
    cases hcc : c.cancelled with
    | true => simp [downloadRun, hcc]
    | false =>
      have hterm : isTerminalCheck c.statusAtTop = true := by
        have := hc
        simp only [Checkpoint.triggers, hcc, Bool.false_or] at this
        exact this
      simp [downloadRun, hcc, hterm]
  | cons x xs ih =>
    have hx : x.triggers = false := by
      simp only [List.all_cons, Bool.and_eq_true, Bool.not_eq_true'] at hpre
      exact hpre.1
    have hco : x.cancelled = false ∧ isTerminalCheck x.statusAtTop = false := by
      simpa only [Checkpoint.triggers, Bool.or_eq_false_iff] using hx
    have hall : xs.all (fun y => !y.triggers) = true := by
      simp only [List.all_cons, Bool.and_eq_true] at hpre
      exact hpre.2
    simp [downloadRun, hco.1, hco.2, ih hall]

/-- Witness for C2 on a two-iteration schedule. -/
theorem C2_ends_at_first_trigger_witness :
    ([⟨false, sampleDownloader.status, sampleDone⟩] : List Checkpoint).all
        (fun x => !x.triggers) = true
      ∧ (⟨false, sampleDone, sampleDone⟩ : Checkpoint).triggers = true
      ∧ downloadRun
          [⟨false, sampleDownloader.status, sampleDone⟩,
           ⟨false, sampleDone, sampleDone⟩]
        = ([sampleDone, sampleDone], true) :=
  ⟨by decide, by decide,
   C2_ends_at_first_trigger [⟨false, sampleDownloader.status, sampleDone⟩]
     ⟨false, sampleDone, sampleDone⟩ [] (by decide) (by decide)⟩

/-- C3 counterexample: after the subprocess fails with an `FFmpegError`,
the recorded status phase is still `PROGRESS` — there is no `Failed`
terminal phase — the loop's terminal check does not fire, and the stream
does not end on its own (three further iterations and the loop is still
running). -/
theorem C3_no_failed_phase_cex :
    (on_task_end sampleDownloader.status (TaskOutcome.ffmpegError sampleErr)).status
        = Phase.PROGRESS
      ∧ isTerminalCheck
          (on_task_end sampleDownloader.status (TaskOutcome.ffmpegError sampleErr))
        = false
      ∧ (downloadRun (List.replicate 3
          ⟨false,
           on_task_end sampleDownloader.status (TaskOutcome.ffmpegError sampleErr),
           on_task_end sampleDownloader.status (TaskOutcome.ffmpegError sampleErr)⟩)).2
        = false := by
  decide

/-- C3 (amended): when the subprocess exits with an `FFmpegError`, the
done-callback records the error onto the shared status without raising and
without touching any other field; in particular the phase stays whatever
it was (`PROGRESS` when no terminal event fired), so the failure is not a
terminal phase and the polling loop does not stop because of it — the
snapshots it keeps yielding carry the recorded error for the consumer. -/
theorem C3_error_recorded_not_raised (s : DownloadStatus) (e : FFmpegErr)
    (n : Nat) (hs : s.status = Phase.PROGRESS) :
    (on_task_end s (TaskOutcome.ffmpegError e)).error = some e
      ∧ (on_task_end s (TaskOutcome.ffmpegError e)).status = s.status
      ∧ (on_task_end s (TaskOutcome.ffmpegError e)).duration = s.duration
      ∧ (on_task_end s (TaskOutcome.ffmpegError e)).time = s.time
      ∧ (on_task_end s (TaskOutcome.ffmpegError e)).play_speed = s.play_speed
      ∧ (on_task_end s (TaskOutcome.ffmpegError e)).current_size = s.current_size
      ∧ (downloadRun (List.replicate n
          ⟨false, on_task_end s (TaskOutcome.ffmpegError e),
           on_task_end s (TaskOutcome.ffmpegError e)⟩)).2 = false := by
  refine ⟨rfl, rfl, rfl, rfl, rfl, rfl, ?_⟩
  have hterm : isTerminalCheck (on_task_end s (TaskOutcome.ffmpegError e)) = false := by
    simp [isTerminalCheck, on_task_end, hs]
  induction n with
  | zero => rfl
  | succ k ih => simp [List.replicate_succ, downloadRun, hterm, ih]

/-- Witness for C3 at the sample failure. -/
theorem C3_error_recorded_not_raised_witness :
    (on_task_end sampleDownloader.status (TaskOutcome.ffmpegError sampleErr)).error
        = some sampleErr
      ∧ (downloadRun (List.replicate 2
          ⟨false, on_task_end sampleDownloader.status (TaskOutcome.ffmpegError sampleErr),
           on_task_end sampleDownloader.status (TaskOutcome.ffmpegError sampleErr)⟩)).2
        = false :=
  ⟨(C3_error_recorded_not_raised sampleDownloader.status sampleErr 2 rfl).1,
   (C3_error_recorded_not_raised sampleDownloader.status sampleErr 2 rfl).2.2.2.2.2.2⟩

/-- Helper: a line with no duration match leaves `duration` unchanged. -/
theorem on_stderr_no_match (d : Downloader) (line : String)
    (h : lineDuration line = none) :
    (d.on_stderr line).status.duration = d.status.duration := by
  have hsd : searchDuration line.data = none := by
    simpa [lineDuration] using h
  simp only [Downloader.on_stderr, hsd]
  split <;> rfl

/-- Helper: once `duration` is nonzero, `on_stderr` never changes it. -/
theorem on_stderr_preserves_nonzero (d : Downloader) (line : String)
    (h : d.status.duration ≠ 0) :
    (d.on_stderr line).status.duration = d.status.duration := by
  simp [Downloader.on_stderr, h]

/-- Helper: with `duration` still zero, a matching line sets it to the
parsed value. -/
theorem on_stderr_sets (d : Downloader) (line : String) (dur : Nat)
    (h0 : d.status.duration = 0) (h : lineDuration line = some dur) :
    (d.on_stderr line).status.duration = dur := by
  obtain ⟨g, hg, hv⟩ : ∃ g, searchDuration line.data = some g
      ∧ 3600 * g.1 + 60 * g.2.1 + g.2.2 = dur := by
    simpa [lineDuration] using h
  simp [Downloader.on_stderr, h0, hg, hv]

/-- Helper: feeding only non-matching lines leaves `duration` unchanged. -/
theorem foldl_stderr_no_match (d : Downloader) (pre : List String)
    (h : ∀ l ∈ pre, lineDuration l = none) :
    ((pre.foldl Downloader.on_stderr d)).status.duration = d.status.duration := by
  induction pre generalizing d with
  | nil => rfl
  | cons l ls ih =>
    rw [List.foldl_cons, ih (d.on_stderr l) (fun x hx => h x (List.mem_cons_of_mem l hx)),
      on_stderr_no_match d l (h l (List.mem_cons_self l ls))]

/-- Helper: a nonzero `duration` survives any further stderr lines. -/
theorem foldl_stderr_preserves_nonzero (d : Downloader) (post : List String)
    (h : d.status.duration ≠ 0) :
    ((post.foldl Downloader.on_stderr d)).status.duration = d.status.duration := by
  induction post generalizing d with
  | nil => rfl
  | cons l ls ih =>
    rw [List.foldl_cons, ih (d.on_stderr l) (by rw [on_stderr_preserves_nonzero d l h]; exact h),
      on_stderr_preserves_nonzero d l h]

/-- C5 counterexample: the guard `if not self._status.duration` treats a
parsed `00:00:00` as "not set", so after the matching line
`Duration: 00:00:00` a later matching line still overwrites the field —
the final duration comes from the second match, not the first. -/
theorem C5_zero_duration_overwritten_cex :
    lineDuration ("Duration: 00:00:00") = some 0
      ∧ lineDuration ("Duration: 00:00:05") = some 5
      ∧ ((["Duration: 00:00:00", "Duration: 00:00:05"].foldl
            Downloader.on_stderr sampleDownloader)).status.duration = 5 := by
  decide

/-- C5 (amended): `duration` is set by the first diagnostic line whose
duration match parses to a nonzero value, and is never overwritten
afterwards; a match parsing to `00:00:00` leaves the zero sentinel in
place and therefore remains overwritable. -/
theorem C5_first_nonzero_duration_wins (d : Downloader) (pre : List String)
    (line : String) (post : List String) (dur : Nat)
    (h0 : d.status.duration = 0)
    (hpre : ∀ l ∈ pre, lineDuration l = none)
    (hline : lineDuration line = some dur) (hdur : dur ≠ 0) :
    (((pre ++ line :: post).foldl Downloader.on_stderr d)).status.duration = dur := by
  rw [List.foldl_append, List.foldl_cons]
  have h1 : ((pre.foldl Downloader.on_stderr d)).status.duration = 0 := by
    rw [foldl_stderr_no_match d pre hpre, h0]
  have h2 : (((pre.foldl Downloader.on_stderr d)).on_stderr line).status.duration = dur :=
    on_stderr_sets _ line dur h1 hline
  rw [foldl_stderr_preserves_nonzero _ post (by rw [h2]; exact hdur), h2]

/-- Witness for C5: a non-matching line, then `Duration: 00:02:30`, then a
later matching line that must not win. -/
theorem C5_first_nonzero_duration_wins_witness :
    ((["frame= 10 fps", "Duration: 00:02:30", "Duration: 00:09:59"].foldl
        Downloader.on_stderr sampleDownloader)).status.duration = 150 :=
  C5_first_nonzero_duration_wins sampleDownloader (["frame= 10 fps"])
    ("Duration: 00:02:30") (["Duration: 00:09:59"]) 150 rfl (by decide)
    (by decide) (by decide)

/-- C7: while a key is registered, a second start request under the same
key is rejected and the registry is unchanged (no new job); once the key
has been removed (job ended), the same request registers the key again. -/
theorem C7_duplicate_key_rejected (reg : List String) (name : String)
    (hnd : reg.Nodup) :
    (reg.contains (Main.normKey name) = true →
        Main.download reg name = (reg, Main.StartOutcome.alreadyDownloading))
      ∧ Main.download (Main.finishDownload reg (Main.normKey name)) name
          = (Main.normKey name :: Main.finishDownload reg (Main.normKey name),
             Main.StartOutcome.started (Main.normKey name)) := by
  constructor
  · intro h
    have hm : Main.normKey name ∈ reg := by simpa using h
    simp [Main.download, hm]
  · have hnm : Main.normKey name ∉ reg.erase (Main.normKey name) :=
      hnd.not_mem_erase
    simp [Main.download, Main.finishDownload, hnm]

/-- Witness for C7 on a two-job registry. -/
theorem C7_duplicate_key_rejected_witness :
    Main.download (["a.mp4", "b.mp4"]) ("a")
        = (["a.mp4", "b.mp4"], Main.StartOutcome.alreadyDownloading)
      ∧ Main.download (Main.finishDownload (["a.mp4", "b.mp4"]) (Main.normKey ("a"))) ("a")
          = (Main.normKey ("a") :: Main.finishDownload (["a.mp4", "b.mp4"]) (Main.normKey ("a")),
             Main.StartOutcome.started (Main.normKey ("a"))) :=
  ⟨(C7_duplicate_key_rejected (["a.mp4", "b.mp4"]) ("a") (by decide)).1 (by decide),
   (C7_duplicate_key_rejected (["a.mp4", "b.mp4"]) ("a") (by decide)).2⟩

/-- C9: `get_error_stack` raises `ValueError` exactly when no error is
recorded; with an error present it returns the formatted stack, a
non-empty string. -/
theorem C9_get_error_stack_spec (s : DownloadStatus) :
    (s.get_error_stack = Except.error PyErr.valueError ↔ s.error = none)
      ∧ ∀ e, s.error = some e →
          ∃ out, s.get_error_stack = Except.ok out ∧ 0 < out.length := by
  constructor
  · cases h : s.error <;> simp [DownloadStatus.get_error_stack, h]
  · intro e he
    refine ⟨String.intercalate ("\n") (formatException e),
      by simp [DownloadStatus.get_error_stack, he], ?_⟩
    have hrfl : String.intercalate ("\n") (formatException e)
        = ("Traceback (most recent call last):\n" ++ "\n")
          ++ ("ffmpeg.errors.FFmpegError: " ++ e.message ++ "\n") := rfl
    rw [hrfl, String.length_append]
    have hpos : 0 < ("Traceback (most recent call last):\n" ++ "\n").length := by decide
    omega

/-- Witness for C9: one status without and one with a recorded error. -/
theorem C9_get_error_stack_spec_witness :
    sampleDownloader.status.get_error_stack = Except.error PyErr.valueError
      ∧ ∃ out,
          (on_task_end sampleDownloader.status
            (TaskOutcome.ffmpegError sampleErr)).get_error_stack = Except.ok out
          ∧ 0 < out.length :=
  ⟨(C9_get_error_stack_spec sampleDownloader.status).1.mpr rfl,
   (C9_get_error_stack_spec
      (on_task_end sampleDownloader.status (TaskOutcome.ffmpegError sampleErr))).2
     sampleErr rfl⟩

/-- C10: after `download()` has stored the process handle, no sequence of
delivered events (completion and termination included) ever clears it, so
`cancel_download` still returns `True`, signals termination and removes
the output file, whatever happened since and whatever the filesystem
state. -/
theorem C10_cancel_after_download_started (d : Downloader) (evs : List Event)
    (fe : Bool) :
    ((d.download_start).run evs).ffmpeg_process = some ()
      ∧ ((d.download_start).run evs).cancel_download fe
          = Except.ok { returned := true, terminateSignalled := true,
                        fileExistsAfter := false } := by
  have hp : ((d.download_start).run evs).ffmpeg_process = some () := by
    rw [run_preserves_process]
    rfl
  exact ⟨hp, cancel_with_process _ fe (by rw [hp]; rfl)⟩

/-- C8: the §8 scenario — after the diagnostic line `Duration: 00:02:30`
and a progress sample `{time: 75s, speed: 1.0, size: 5_000_000}`, the
snapshot has `duration = 150 s` and `time = 75 s`, and `__str__` renders
the fixed-format summary with the speed suffixed `x` and the size rounded
to two decimals as `5.0MB`. -/
theorem C8_render_scenario :
    scenarioStatus.duration = 150 ∧ scenarioStatus.time = 75
      ∧ scenarioStatus.toStr
          = "Duration: 0:02:30\nStatus: PROGRESS\nTime: 0:01:15\nSpeed: 1.0x\nSize: 5.0MB" := by
  refine ⟨rfl, rfl, ?_⟩
  decide

end M3u8dl
